import Mathlib

/-!
Verification of the `kubernetes-master` charm's reactive layer
(`reactive/kubernetes_master.py`) against its natural-language specification.

The embedding models:
* the node-local secret files, the leadership broadcast channel, the reactive
  flags and the `any_file_changed` fingerprints as association lists;
* the leader/follower secret-distribution protocol
  (`setup_leader_authentication`, `setup_non_leader_authentication`,
  `get_keys_from_leader`);
* the `known_tokens` / `basic_auth` csv table rewrites
  (`add_rbac_roles`, `setup_basic_auth`);
* the status aggregator `set_final_status` as a first-match rule table;
* the SAN list construction of `send_data`;
* the option-apply/restart behaviour of `configure_scheduler`;
* the service-CIDR arithmetic of `get_kubernetes_service_ip` and
  `get_deprecated_dns_ip`.

Python strings are modelled as `String`; where the charm relies on Python
string primitives (`str.split`, `str.strip`, `str.lower`) the model uses
character-list implementations with the same behaviour so that concrete runs
reduce in the kernel.  Files are opened in text mode by the charm, so csv rows
written with a CRLF terminator are read back with LF; the model uses LF
throughout.  Randomness (`token_generator`, `openssl genrsa`) is modelled by
explicit oracles passed to the handlers.
-/

namespace KubernetesMaster

/-! ### Python string primitives, modelled on character lists -/

/-- Python `s.split(sep)` for a one-character separator (keeps empty chunks). -/
def strSplitOn (sep : Char) (s : String) : List String :=
  (s.data.splitOn sep).map (fun l => String.mk l)

/-- Python `s.strip()`: remove leading and trailing whitespace. -/
def strTrim (s : String) : String :=
  String.mk (((s.data.dropWhile Char.isWhitespace).reverse.dropWhile Char.isWhitespace).reverse)

/-- Python `s.split()` with no argument: split on whitespace runs, dropping
empty chunks.  (The charm only ever feeds it space-separated configuration
values.) -/
def splitWS (s : String) : List String :=
  ((s.data.splitOn ' ').map (fun l => String.mk l)).filter (fun t => t ≠ "")

/-- Python `s.lower()` on the ASCII configuration values used by the charm. -/
def strToLower (s : String) : String := String.mk (s.data.map Char.toLower)

/-- Python `'\n'.join`-style concatenation of already-terminated lines. -/
def strConcat (l : List String) : String := l.foldr (fun a b => a ++ b) ""

/-! ### Stores: local files, leadership broadcast, flags, fingerprints -/

/-- An association-list key/value store: the node's secret files (key = path),
and the leadership broadcast channel (key = broadcast key). -/
abbrev Store := List (String × String)

/-- Look a key up in a store (`os.path.exists` + `open().read()`, or
`leader_get`). -/
def storeGet (st : Store) (k : String) : Option String :=
  match st with
  | [] => none
  | p :: rest => if p.1 = k then some p.2 else storeGet rest k

/-- Write a key into a store (`open(k, 'w+').write`, or one key of a
`leader_set` batch). -/
def storeSet (st : Store) (k v : String) : Store :=
  match st with
  | [] => [(k, v)]
  | p :: rest => if p.1 = k then (k, v) :: rest else p :: storeSet rest k v

/-- Fingerprint store of `charms.reactive.helpers.any_file_changed`:
path → last recorded file hash (`none` = file was absent when recorded, which
`unitdata` cannot distinguish from never recorded). -/
abbrev HStore := List (String × Option String)

def hstoreGet (st : HStore) (k : String) : Option String :=
  match st with
  | [] => none
  | p :: rest => if p.1 = k then p.2 else hstoreGet rest k

def hstoreSet (st : HStore) (k : String) (v : Option String) : HStore :=
  match st with
  | [] => [(k, v)]
  | p :: rest => if p.1 = k then (k, v) :: rest else p :: hstoreSet rest k v

/-- `charms.reactive.is_state`. -/
def is_state (flags : List String) (f : String) : Bool := flags.contains f

/-- `charms.reactive.set_state`: idempotent flag set. -/
def set_state (flags : List String) (f : String) : List String :=
  if flags.contains f then flags else flags ++ [f]

/-- `charms.reactive.remove_state`: idempotent flag clear. -/
def remove_state (flags : List String) (f : String) : List String :=
  flags.filter (fun g => g ≠ f)

/-- The whole per-node state touched by the authentication handlers. -/
structure CharmState where
  files : Store
  channel : Store
  flags : List String
  hashes : HStore
deriving DecidableEq, Repr

/-! ### The secret set -/

def service_key : String := "/root/cdk/serviceaccount.key"

def basic_auth : String := "/root/cdk/basic_auth.csv"

def known_tokens : String := "/root/cdk/known_tokens.csv"

/-- `keys = [service_key, basic_auth, known_tokens]` as built in both
authentication handlers. -/
def auth_keys : List String := [service_key, basic_auth, known_tokens]

/-! ### `get_keys_from_leader` (lines 411-440)

Iterates over the keys in order; for each path that is absent locally (or
always, under `overwrite_local`) it fetches the broadcast value, returning
`False` as soon as one is missing, and otherwise writes the value *plus a
trailing newline* to the file.  Files written before a missing value is
discovered stay written, which the returned `Store` records faithfully. -/

def get_keys_from_leader (channel : Store) (overwrite_local : Bool) :
    List String → Store → Store × Bool
  | [], files => (files, true)
  | k :: rest, files =>
    if (storeGet files k).isNone || overwrite_local then
      match storeGet channel k with
      | none => (files, false)
      | some contents =>
        get_keys_from_leader channel overwrite_local rest (storeSet files k (contents ++ "\n"))
    else
      get_keys_from_leader channel overwrite_local rest files

/-! ### `any_file_changed`

Modelled from the spec: `charms.reactive.helpers.any_file_changed` is not part
of this repository.  Per the spec's change-propagation rule it reports whether
any file's content hash differs from the last recorded fingerprint and updates
every fingerprint; the model uses the file content itself as its hash. -/

def any_file_changed (keys : List String) (files : Store) (hashes : HStore) : Bool × HStore :=
  keys.foldl
    (fun acc k =>
      let old := hstoreGet acc.2 k
      let new := storeGet files k
      (acc.1 || decide (old ≠ new), hstoreSet acc.2 k new))
    (false, hashes)

/-! ### `setup_non_leader_authentication` (lines 387-408) -/

def setup_non_leader_authentication (s : CharmState) : CharmState :=
  let fetched := get_keys_from_leader s.channel true auth_keys s.files
  if !fetched.2 then
    { s with files := fetched.1 }
  else
    let changed := any_file_changed auth_keys fetched.1 s.hashes
    if !changed.1 && is_state s.flags "authentication.setup" then
      { s with files := fetched.1, hashes := changed.2 }
    else
      { s with
        files := fetched.1
        hashes := changed.2
        flags := set_state (remove_state s.flags "kubernetes-master.components.started")
          "authentication.setup" }

/-! ### csv tables

The `basic_auth.csv` table is read with `csv.reader` and written with
`csv.writer`.  Both are Python-stdlib collaborators; the model below covers
their behaviour on the tables this charm produces (fields without embedded
separators or line breaks, minimal quoting, text-mode newline translation). -/

/-- Strip one level of surrounding double quotes, un-doubling inner quotes. -/
def csvUnquote (f : String) : String :=
  match f.data with
  | '"' :: rest =>
    if rest.getLast? = some '"' then
      String.mk (csvUnquoteAux rest.dropLast)
    else f
  | _ => f
where
  csvUnquoteAux : List Char → List Char
    | [] => []
    | '"' :: '"' :: rest => '"' :: csvUnquoteAux rest
    | c :: rest => c :: csvUnquoteAux rest

/-- One csv record, split on commas. -/
def csvParseLine (line : String) : List String :=
  (strSplitOn ',' line).map csvUnquote

/-- `list(csv.reader(f))` on a text-mode file. -/
def csvParse (content : String) : List (List String) :=
  ((strSplitOn '\n' content).filter (fun l => l ≠ "")).map csvParseLine

/-- Minimal quoting of `csv.writer`. -/
def csvQuoteField (f : String) : String :=
  if f.data.any (fun c => c = ',' || c = '"' || c = '\n' || c = '\r') then
    "\"" ++ String.mk (csvEscapeAux f.data) ++ "\""
  else f
where
  csvEscapeAux : List Char → List Char
    | [] => []
    | '"' :: rest => '"' :: '"' :: csvEscapeAux rest
    | c :: rest => c :: csvEscapeAux rest

/-- `csv.writer(f).writerows(rows)` (CRLF terminators read back as LF in text
mode, so the model emits LF). -/
def csvSerialize (rows : List (List String)) : String :=
  strConcat (rows.map (fun r => String.intercalate "," (r.map csvQuoteField) ++ "\n"))

/-! ### `token_generator` (lines 1877-1882) -/

/-- `token_generator`: 32 random alphanumeric characters; the random choices
of `random.SystemRandom().choice` are an explicit oracle. -/
def token_generator (choose : Nat → Char) (length : Nat := 32) : String :=
  String.mk ((List.range length).map choose)

/-! ### `get_password` (lines 1849-1860) -/

/-- `get_password(csv_fname, user)` applied to the content of the csv file
(`none` = file absent).  Scans the lines for the first record whose second
comma-field is `user` and returns its first field. -/
def get_password (content : Option String) (user : String) : Option String :=
  match content with
  | none => none
  | some c =>
    (strSplitOn '\n' c).findSome? fun line =>
      let record := strSplitOn ',' line
      match record.get? 1 with
      | some u => if u = user then record.get? 0 else none
      | none => none

/-! ### `setup_basic_auth` (lines 1801-1828) -/

/-- The row written by `setup_basic_auth`: a generated token replaces a falsy
password, and `groups` is appended only when truthy. -/
def basicAuthNewRow (choose : Nat → Char) (password : Option String)
    (username uid : String) (groups : Option String) : List String :=
  let pw := match password with
    | none => token_generator choose
    | some p => if p = "" then token_generator choose else p
  [pw, username, uid] ++
    (match groups with
     | none => []
     | some g => if g = "" then [] else [g])

/-- The `for ... break ... else append` loop of `setup_basic_auth`: replace the
first row whose second field is `username` or whose third field is `uid`,
append if none matches.  Returns `none` where Python would raise `IndexError`
(a row too short for the accessed field). -/
def basicAuthUpdate (newRow : List String) (username uid : String) :
    List (List String) → Option (List (List String))
  | [] => some [newRow]
  | r :: rs =>
    match r.get? 1 with
    | none => none
    | some f1 =>
      if f1 = username then
        some (newRow :: rs)
      else
        match r.get? 2 with
        | none => none
        | some f2 =>
          if f2 = uid then
            some (newRow :: rs)
          else
            match basicAuthUpdate newRow username uid rs with
            | none => none
            | some rs2 => some (r :: rs2)

/-- `setup_basic_auth` on the parsed rows of `/root/cdk/basic_auth.csv`. -/
def setup_basic_auth_rows (choose : Nat → Char) (password : Option String)
    (username uid : String) (groups : Option String)
    (rows : List (List String)) : Option (List (List String)) :=
  basicAuthUpdate (basicAuthNewRow choose password username uid groups) username uid rows

/-- `setup_basic_auth` on the file content (`none` = `FileNotFoundError`,
giving an empty table). -/
def setup_basic_auth (choose : Nat → Char) (password : Option String)
    (username uid : String) (groups : Option String)
    (content : Option String) : Option String :=
  let rows := match content with
    | none => []
    | some c => csvParse c
  (setup_basic_auth_rows choose password username uid groups rows).map csvSerialize

/-! ### `setup_leader_authentication` (lines 344-384) -/

/-- The random material a leader invocation may consume: the
`token_generator` choices and the `openssl genrsa` output. -/
structure Fresh where
  choose : Nat → Char
  sslKey : String

/-- The body of the `if not get_keys_from_leader(keys) or ...` branch: rewrite
the admin row of `basic_auth.csv` reusing the previous admin password, `touch`
`known_tokens.csv` when absent, generate the service-account key when absent. -/
def leader_generate (fresh : Fresh) (files : Store) : Option Store := do
  let lastPass := get_password (storeGet files basic_auth) "admin"
  let newBA ← setup_basic_auth fresh.choose lastPass "admin" "admin" (some "system:masters")
    (storeGet files basic_auth)
  let f1 := storeSet files basic_auth newBA
  let f2 := if (storeGet f1 known_tokens).isNone then storeSet f1 known_tokens "" else f1
  some (if (storeGet f2 service_key).isNone then storeSet f2 service_key fresh.sslKey else f2)

/-- One batched `leader_set` publication: the key/value pairs of a single call. -/
abbrev Broadcast := List (String × String)

/-- The first half of `setup_leader_authentication`: try the old leadership
broadcast first, and enter the generation branch only when that fails or the
`reconfigure.authentication.setup` flag is set (which the branch clears). -/
def leader_fetch_or_generate (fresh : Fresh) (s : CharmState) : Option (Store × List String) :=
  if !(get_keys_from_leader s.channel false auth_keys s.files).2
      || is_state s.flags "reconfigure.authentication.setup" then
    (leader_generate fresh (get_keys_from_leader s.channel false auth_keys s.files).1).map
      (fun f => (f, remove_state s.flags "reconfigure.authentication.setup"))
  else
    some ((get_keys_from_leader s.channel false auth_keys s.files).1, s.flags)

/-- `setup_leader_authentication`: fetch-or-generate the secret set, then read
every file back and publish the whole set in one `leader_set` call (returned
as the single element of the broadcast trace).  `none` models an uncaught
exception. -/
def setup_leader_authentication (fresh : Fresh) (s : CharmState) :
    Option (CharmState × List Broadcast) :=
  match leader_fetch_or_generate fresh s with
  | none => none
  | some (files2, flags2) =>
    match storeGet files2 known_tokens, storeGet files2 basic_auth,
        storeGet files2 service_key with
    | some c1, some c2, some c3 =>
      some
        ({ files := files2
           channel := storeSet (storeSet (storeSet s.channel known_tokens c1) basic_auth c2)
             service_key c3
           flags := set_state (remove_state flags2 "kubernetes-master.components.started")
             "authentication.setup"
           hashes := s.hashes },
         [[(known_tokens, c1), (basic_auth, c2), (service_key, c3)]])
    | _, _, _ => none

/-! ### `add_rbac_roles` (lines 202-229)

Rewrites `known_tokens.csv` line by line from the backup copy.  Lines are kept
with their original text (including the newline) unless transformed; rewritten
records get an explicit trailing newline.  `none` models the `IndexError`
Python raises when a stripped line has fewer than three comma-fields. -/

/-- The treatment of one line of the backup file: `none` = `IndexError`,
`some none` = the line is dropped, `some (some out)` = `out` is written. -/
def rbacTransform (line : String) : Option (Option String) :=
  match (strSplitOn ',' (strTrim line)).get? 2 with
  | none => none
  | some f2 =>
    if f2 = "admin" ∧ (strSplitOn ',' (strTrim line)).length = 3 then
      some (some ((strSplitOn ',' (strTrim line)).getD 0 "" ++ ","
        ++ (strSplitOn ',' (strTrim line)).getD 1 "" ++ "," ++ f2
        ++ ",\"system:masters\"\n"))
    else if f2 = "kube_proxy" then
      some (some ((strSplitOn ',' (strTrim line)).getD 0 ""
        ++ ",system:kube-proxy,kube-proxy\n"))
    else if f2 = "kubelet" ∧ (strSplitOn ',' (strTrim line)).getD 1 "" = "kubelet" then
      some none
    else
      some (some line)

def add_rbac_roles : List String → Option (List String)
  | [] => some []
  | line :: rest =>
    match rbacTransform line with
    | none => none
    | some none => add_rbac_roles rest
    | some (some out) =>
      match add_rbac_roles rest with
      | none => none
      | some outs => some (out :: outs)

/-! ### Version tuples

`get_version('kube-apiserver')` yields a tuple of ints; Python compares tuples
lexicographically (a shorter tuple that is a prefix is smaller). -/

def verLt : List Nat → List Nat → Bool
  | [], [] => false
  | [], _ :: _ => true
  | _ :: _, [] => false
  | a :: as, b :: bs => if a < b then true else if b < a then false else verLt as bs

/-! ### `get_dns_provider` (lines 2417-2440) and `InvalidDnsProvider` -/

/-- The `valid_dns_providers` list: `core-dns` is removed below 1.14. -/
def valid_dns_providers (kubeVersion : List Nat) : List String :=
  let l := ["auto", "core-dns", "kube-dns", "none"]
  if verLt kubeVersion [1, 14] then l.erase "core-dns" else l

/-- `get_dns_provider`: `Except.error v` models `raise InvalidDnsProvider(v)`
carrying the lowercased offending value.  On `auto`, an unset (falsy)
`auto_dns_provider` broadcast value is resolved to `core-dns` when valid, else
`kube-dns`.  (The `leader_set` write-back does not affect the returned
value.) -/
def get_dns_provider (dnsConfig : String) (kubeVersion : List Nat)
    (autoDnsProvider : Option String) : Except String String :=
  if strToLower dnsConfig ∉ valid_dns_providers kubeVersion then
    Except.error (strToLower dnsConfig)
  else if strToLower dnsConfig = "auto" then
    if autoDnsProvider.getD "" = "" then
      Except.ok
        (if (valid_dns_providers kubeVersion).contains "core-dns" then "core-dns"
         else "kube-dns")
    else
      Except.ok (autoDnsProvider.getD "")
  else
    Except.ok (strToLower dnsConfig)

/-! ### `set_final_status` (lines 450-593) -/

/-- Juju workload status levels used by `hookenv.status_set`. -/
inductive WorkloadStatus
  | active
  | blocked
  | waiting
  | maintenance
deriving DecidableEq, Repr

/-- A reported status: level plus message. -/
structure StatusMsg where
  level : WorkloadStatus
  msg : String
deriving DecidableEq, Repr

/-- Everything `set_final_status` reads: the flag snapshot plus the external
queries it performs (goal state, keystone endpoint, versions, service and pod
probes, CIDR configuration). -/
structure KubeSnapshot where
  flags : List String
  goalRelations : List String
  encryptionConfigExists : Bool
  ksApiVersion : Option String
  dnsConfig : String
  autoDnsProvider : Option String
  kubeVersion : List Nat
  failingServices : List String
  podsNotRunning : Option (List String)
  configServiceCidr : String
  dbServiceCidr : Option String
  cephKey : Bool
deriving DecidableEq, Repr

/-- `service_cidr()` (lines 127-130): the frozen CIDR from the durable store
when truthy, the configured `service-cidr` otherwise. -/
def service_cidr (dbServiceCidr : Option String) (configServiceCidr : String) : String :=
  match dbServiceCidr with
  | none => configServiceCidr
  | some c => if c = "" then configServiceCidr else c

/-- One `if ... : status_set(...); return` block of `set_final_status`. -/
structure StatusRule where
  pred : KubeSnapshot → Bool
  act : KubeSnapshot → StatusMsg

/-- The pluralised kube-system pod message (`"s"[len(unready) == 1:]`). -/
def podsMsg (n : Nat) : String :=
  "Waiting for " ++ toString n ++ " kube-system pod" ++ (if n = 1 then "" else "s")
    ++ " to start"

/-- The guarded status blocks of `set_final_status`, in source order.  The
first rule whose predicate holds determines the reported status; the trailing
default is `active` / `Kubernetes master running.`. -/
def final_status_rules : List StatusRule :=
  [ { pred := fun s => is_state s.flags "kubernetes-master.secure-storage.failed"
      act := fun _ => ⟨.blocked,
        "Failed to configure encryption; secrets are unencrypted or inaccessible"⟩ },
    { pred := fun s => is_state s.flags "kubernetes-master.secure-storage.created"
        && !s.encryptionConfigExists
      act := fun _ => ⟨.blocked, "VaultLocker containing encryption config unavailable"⟩ },
    { pred := fun s => is_state s.flags "endpoint.vsphere.joined"
        && is_state s.flags "kubernetes-master.cloud.blocked"
      act := fun _ => ⟨.blocked, "vSphere integration requires K8s 1.12 or greater"⟩ },
    { pred := fun s => is_state s.flags "endpoint.azure.joined"
        && is_state s.flags "kubernetes-master.cloud.blocked"
      act := fun _ => ⟨.blocked, "Azure integration requires K8s 1.11 or greater"⟩ },
    { pred := fun s => is_state s.flags "kubernetes-master.cloud.pending"
      act := fun _ => ⟨.waiting, "Waiting for cloud integration"⟩ },
    { pred := fun s => !is_state s.flags "kube-api-endpoint.available"
      act := fun s =>
        ⟨if s.goalRelations.contains "kube-api-endpoint" then .waiting else .blocked,
         "Waiting for kube-api-endpoint relation"⟩ },
    { pred := fun s => !is_state s.flags "kube-control.connected"
      act := fun s =>
        ⟨if s.goalRelations.contains "kube-control" then .waiting else .blocked,
         "Waiting for workers."⟩ },
    { pred := fun s => s.ksApiVersion = some "2"
      act := fun _ => ⟨.blocked, "Keystone auth v2 detected. v3 is required."⟩ },
    { pred := fun s => is_state s.flags "kubernetes-master.upgrade-needed"
        && !is_state s.flags "kubernetes-master.upgrade-specified"
      act := fun _ => ⟨.blocked, "Needs manual upgrade, run the upgrade action"⟩ },
    { pred := fun s =>
        match get_dns_provider s.dnsConfig s.kubeVersion s.autoDnsProvider with
        | Except.error _ => true
        | Except.ok _ => false
      act := fun s =>
        ⟨.blocked,
         match get_dns_provider s.dnsConfig s.kubeVersion s.autoDnsProvider with
         | Except.error v =>
           if v = "core-dns" then "dns-provider=core-dns requires k8s 1.14+"
           else "dns-provider=" ++ v ++ " is invalid"
         | Except.ok _ => ""⟩ },
    { pred := fun s => is_state s.flags "kubernetes-master.components.started"
        && !s.failingServices.isEmpty
      act := fun s =>
        ⟨.blocked, "Stopped services: " ++ String.intercalate "," s.failingServices⟩ },
    { pred := fun s => !is_state s.flags "kubernetes-master.components.started"
      act := fun s =>
        if is_state s.flags "cni.available" then
          ⟨.maintenance, "Waiting for master components to start"⟩
        else
          ⟨.waiting, "Waiting for CNI plugins to become available"⟩ },
    { pred := fun s => !is_state s.flags "leadership.is_leader"
        && !is_state s.flags "authentication.setup"
      act := fun _ => ⟨.waiting, "Waiting on leader's crypto keys."⟩ },
    { pred := fun s => is_state s.flags "leadership.is_leader"
        && !is_state s.flags "cdk-addons.configured"
      act := fun _ => ⟨.waiting, "Waiting to retry addon deployment"⟩ },
    { pred := fun s => s.podsNotRunning.isNone
      act := fun _ => ⟨.waiting, "Waiting for kube-system pods to start"⟩ },
    { pred := fun s => !(s.podsNotRunning.getD []).isEmpty
      act := fun s => ⟨.waiting, podsMsg (s.podsNotRunning.getD []).length⟩ },
    { pred := fun s => s.configServiceCidr ≠ service_cidr s.dbServiceCidr s.configServiceCidr
      act := fun s =>
        ⟨.active, "WARN: cannot change service-cidr, still using "
          ++ service_cidr s.dbServiceCidr s.configServiceCidr⟩ },
    { pred := fun s => is_state s.flags "kube-control.gpu.available"
        && !is_state s.flags "kubernetes-master.gpu.enabled"
      act := fun _ => ⟨.active, "GPUs available. Set allow-privileged=\"auto\" to enable."⟩ },
    { pred := fun s => is_state s.flags "ceph-storage.available"
        && is_state s.flags "ceph-client.connected"
        && is_state s.flags "kubernetes-master.privileged"
        && !is_state s.flags "kubernetes-master.ceph.configured"
        && !verLt s.kubeVersion [1, 12]
        && !s.cephKey
      act := fun _ => ⟨.waiting, "Waiting for Ceph to provide a key."⟩ } ]

/-- First-match evaluation over an ordered rule table. -/
def firstMatchStatus (default : StatusMsg) : List StatusRule → KubeSnapshot → StatusMsg
  | [], _ => default
  | r :: rs, s => if r.pred s then r.act s else firstMatchStatus default rs s

/-- `set_final_status`: first matching rule wins, else the running default. -/
def set_final_status (s : KubeSnapshot) : StatusMsg :=
  firstMatchStatus ⟨.active, "Kubernetes master running."⟩ final_status_rules s

/-- Padding rule used to read the table out of range: never matches. -/
def noRule : StatusRule := ⟨fun _ => false, fun _ => ⟨.active, ""⟩⟩

/-- The predicate of rule `i` (false beyond the table). -/
def rulePred (i : Nat) (s : KubeSnapshot) : Bool :=
  ((final_status_rules.getD i noRule).pred) s

/-- The status produced by rule `i`. -/
def ruleAct (i : Nat) (s : KubeSnapshot) : StatusMsg :=
  ((final_status_rules.getD i noRule).act) s

/-! ### `send_data` SAN construction (lines 866-931) -/

/-- The inputs `send_data` collects names from. -/
structure SanInputs where
  unitPublicIp : String
  ingressIp : String
  hostname : String
  fqdn : String
  kubernetesServiceIp : String
  dnsDomain : String
  loadbalancerIps : String
  haConnected : Bool
  haClusterVip : String
  haClusterDns : String
  loadbalancerAddresses : Option (List String)
  extraSans : String
deriving DecidableEq, Repr

/-- The `sans` list exactly as `send_data` accumulates it, before
`sorted(set(...))`. -/
def collect_sans (i : SanInputs) : List String :=
  let base :=
    [ i.unitPublicIp, i.ingressIp, i.hostname, i.fqdn, i.kubernetesServiceIp,
      "kubernetes", "kubernetes." ++ i.dnsDomain, "kubernetes.default",
      "kubernetes.default.svc", "kubernetes.default.svc." ++ i.dnsDomain ]
  let forced := splitWS i.loadbalancerIps
  let lbPart :=
    if forced ≠ [] then forced
    else if i.haConnected then
      let vips := splitWS i.haClusterVip
      if vips ≠ [] then vips
      else if i.haClusterDns ≠ "" then [i.haClusterDns]
      else []
    else
      match i.loadbalancerAddresses with
      | some hosts => hosts
      | none => []
  let extra := if i.extraSans ≠ "" then splitWS i.extraSans else []
  base ++ lbPart ++ extra

/-- Python `sorted(set(l))` on strings: the deduplicated list in increasing
lexicographic order. -/
def sorted_set (l : List String) : List String := l.dedup.mergeSort (fun a b => a ≤ b)

/-- The SAN list passed to `tls_client.request_server_cert`. -/
def request_sans (i : SanInputs) : List String := sorted_set (collect_sans i)

/-! ### `configure_scheduler` (lines 1788-1798) and the option-apply contract -/

/-- A desired option map for one managed service. -/
abbrev Opts := List (String × String)

/-- Modelled from the spec: `charms.layer.kubernetes_common.
configure_kubernetes_service` is not part of this repository.  Per spec §4.6
it persists the merged option map under the service's namespace, diffs it
against the previously persisted map, and reports whether anything changed. -/
def configure_kubernetes_service (prev : Option Opts) (base extra : Opts) : Opts × Bool :=
  let merged := base ++ extra
  (merged, decide (some merged ≠ prev))

/-- The externally observable side effects of a configure handler. -/
inductive ServiceEffect
  | configured (service : String) (changed : Bool)
  | restarted (unitName : String)
deriving DecidableEq, Repr

def isRestart : ServiceEffect → Bool
  | ServiceEffect.restarted _ => true
  | _ => false

/-- The collaborator state for the `kube-scheduler` namespace plus the
operator's `scheduler-extra-args` configuration. -/
structure SchedulerState where
  prevArgs : Option Opts
  extraArgs : Opts
deriving DecidableEq, Repr

/-- The static option map `configure_scheduler` assembles. -/
def scheduler_opts : Opts :=
  [("v", "2"), ("logtostderr", "true"), ("master", "http://127.0.0.1:8080")]

/-- `configure_scheduler`: hand the option map to the collaborator, then call
`service_restart('snap.kube-scheduler.daemon')` — unconditionally. -/
def configure_scheduler (st : SchedulerState) : SchedulerState × List ServiceEffect :=
  let applied := configure_kubernetes_service st.prevArgs scheduler_opts st.extraArgs
  ({ st with prevArgs := some applied.1 },
   [ServiceEffect.configured "kube-scheduler" applied.2,
    ServiceEffect.restarted "snap.kube-scheduler.daemon"])

/-! ### Service-CIDR arithmetic (lines 1521-1534) -/

/-- Decimal value of a digit run, as `int(...)` computes it. -/
def digitsVal (l : List Char) : Nat :=
  l.foldl (fun a c => a * 10 + (c.toNat - 48)) 0

/-- Parse one dotted-quad octet: digits only, value at most 255. -/
def parseOctet (l : List Char) : Option Nat :=
  if l ≠ [] && l.all Char.isDigit then
    let v := digitsVal l
    if v ≤ 255 then some v else none
  else none

/-- Parse a dotted-quad IPv4 address into its 32-bit value. -/
def parseIPv4 (s : String) : Option Nat :=
  match s.data.splitOn '.' with
  | [a, b, c, d] => do
    let x ← parseOctet a
    let y ← parseOctet b
    let z ← parseOctet c
    let w ← parseOctet d
    some (((x * 256 + y) * 256 + z) * 256 + w)
  | _ => none

/-- Parse `addr/prefix` (a bare address is `/32`), as
`ipaddress.IPv4Interface` does on the values this charm handles. -/
def parseCIDR (s : String) : Option (Nat × Nat) :=
  match strSplitOn '/' s with
  | [ip] => do
    let a ← parseIPv4 ip
    some (a, 32)
  | [ip, p] => do
    let a ← parseIPv4 ip
    let n := digitsVal p.data
    if p.data ≠ [] && p.data.all Char.isDigit && n ≤ 32 then some (a, n) else none
  | _ => none

/-- `interface.network.network_address`: the address with host bits cleared. -/
def networkAddress (ip p : Nat) : Nat := ip - ip % 2 ^ (32 - p)

/-- `IPv4Address.exploded`: the dotted-quad rendering. -/
def exploded (n : Nat) : String :=
  toString (n / 16777216 % 256) ++ "." ++ toString (n / 65536 % 256) ++ "."
    ++ toString (n / 256 % 256) ++ "." ++ toString (n % 256)

/-- `get_kubernetes_service_ip`: network address of the service CIDR plus 1
(`none` models the `ipaddress` exceptions on unparsable or overflowing
values). -/
def get_kubernetes_service_ip (dbServiceCidr : Option String)
    (configServiceCidr : String) : Option String := do
  let (ip, p) ← parseCIDR (service_cidr dbServiceCidr configServiceCidr)
  let n := networkAddress ip p + 1
  if n < 4294967296 then some (exploded n) else none

/-- `get_deprecated_dns_ip`: network address of the service CIDR plus 10. -/
def get_deprecated_dns_ip (dbServiceCidr : Option String)
    (configServiceCidr : String) : Option String := do
  let (ip, p) ← parseCIDR (service_cidr dbServiceCidr configServiceCidr)
  let n := networkAddress ip p + 10
  if n < 4294967296 then some (exploded n) else none

/-! ## Helper lemmas -/

theorem storeGet_storeSet_self (st : Store) (k v : String) :
    storeGet (storeSet st k v) k = some v := by
  induction st with
  | nil => simp [storeGet, storeSet]
  | cons p rest ih =>
    unfold storeSet
    by_cases h : p.1 = k
    · simp [storeGet, h]
    · simp only [if_neg h, storeGet, if_neg h, ih]

theorem storeGet_storeSet_ne (st : Store) (k v : String) (k' : String) (h : k' ≠ k) :
    storeGet (storeSet st k v) k' = storeGet st k' := by
  induction st with
  | nil =>
    simp only [storeSet, storeGet]
    rw [if_neg (fun hh => h hh.symm)]
  | cons p rest ih =>
    unfold storeSet
    by_cases hp : p.1 = k
    · subst hp
      simp only [if_pos rfl, storeGet]
      rw [if_neg (fun hh => h hh.symm), if_neg (fun hh => h hh.symm)]
    · simp only [if_neg hp, storeGet, ih]

theorem storeGet_storeSet_isSome (st : Store) (k v : String) (k' : String)
    (h : (storeGet st k').isSome) : (storeGet (storeSet st k v) k').isSome := by
  by_cases hk : k' = k
  · subst hk
    rw [storeGet_storeSet_self]
    rfl
  · rwa [storeGet_storeSet_ne st k v k' hk]

theorem get_keys_from_leader_isSome_mono (ch : Store) (ow : Bool) (keys : List String)
    (files : Store) (k : String) (h : (storeGet files k).isSome) :
    (storeGet (get_keys_from_leader ch ow keys files).1 k).isSome := by
  induction keys generalizing files with
  | nil => exact h
  | cons k0 rest ih =>
    unfold get_keys_from_leader
    by_cases hc : ((storeGet files k0).isNone || ow) = true
    · rw [if_pos hc]
      cases hch : storeGet ch k0 with
      | none => exact h
      | some v => exact ih _ (storeGet_storeSet_isSome files k0 (v ++ "\n") k h)
    · rw [if_neg hc]
      exact ih _ h

theorem get_keys_from_leader_ok (ch : Store) (ow : Bool) (keys : List String) (files : Store)
    (h : ∀ k ∈ keys, (storeGet ch k).isSome) :
    (get_keys_from_leader ch ow keys files).2 = true := by
  induction keys generalizing files with
  | nil => rfl
  | cons k0 rest ih =>
    unfold get_keys_from_leader
    have h0 : (storeGet ch k0).isSome := h k0 (by simp)
    obtain ⟨v, hv⟩ := Option.isSome_iff_exists.mp h0
    by_cases hc : ((storeGet files k0).isNone || ow) = true
    · rw [if_pos hc, hv]
      exact ih _ (fun k hk => h k (List.mem_cons_of_mem _ hk))
    · rw [if_neg hc]
      exact ih _ (fun k hk => h k (List.mem_cons_of_mem _ hk))

theorem get_keys_from_leader_not_mem (ch : Store) (ow : Bool) (keys : List String)
    (files : Store) (k : String) (hk : k ∉ keys) :
    storeGet (get_keys_from_leader ch ow keys files).1 k = storeGet files k := by
  induction keys generalizing files with
  | nil => rfl
  | cons k0 rest ih =>
    have hk0 : k ≠ k0 := fun h => hk (h ▸ List.mem_cons_self k0 rest)
    have hkr : k ∉ rest := fun h => hk (List.mem_cons_of_mem _ h)
    unfold get_keys_from_leader
    by_cases hc : ((storeGet files k0).isNone || ow) = true
    · rw [if_pos hc]
      cases hch : storeGet ch k0 with
      | none => rfl
      | some v => rw [ih _ hkr, storeGet_storeSet_ne _ _ _ _ hk0]
    · rw [if_neg hc]
      exact ih _ hkr

theorem get_keys_from_leader_mem_isSome (ch : Store) (ow : Bool) (keys : List String)
    (files : Store) (h : ∀ k ∈ keys, (storeGet ch k).isSome) (k : String) (hk : k ∈ keys) :
    (storeGet (get_keys_from_leader ch ow keys files).1 k).isSome := by
  induction keys generalizing files with
  | nil => exact absurd hk (List.not_mem_nil k)
  | cons k0 rest ih =>
    have hrest : ∀ j ∈ rest, (storeGet ch j).isSome :=
      fun j hj => h j (List.mem_cons_of_mem _ hj)
    unfold get_keys_from_leader
    by_cases hc : ((storeGet files k0).isNone || ow) = true
    · rw [if_pos hc]
      obtain ⟨v, hv⟩ := Option.isSome_iff_exists.mp (h k0 (by simp))
      rw [hv]
      rcases List.mem_cons.mp hk with hk | hk
      · subst hk
        by_cases hkr : k ∈ rest
        · exact ih _ hrest hkr
        · rw [get_keys_from_leader_not_mem _ _ _ _ _ hkr, storeGet_storeSet_self]
          rfl
      · exact ih _ hrest hk
    · rw [if_neg hc]
      rcases List.mem_cons.mp hk with hk | hk
      · subst hk
        rw [Bool.or_eq_true] at hc
        push_neg at hc
        have : ¬(storeGet files k).isNone := fun hn => hc.1 (by simp [hn])
        exact get_keys_from_leader_isSome_mono ch ow rest files k
          (by simpa [Option.isNone_iff_eq_none, Option.isSome_iff_ne_none] using this)
      · exact ih _ hrest hk

theorem get_keys_from_leader_overwrite_get (ch : Store) (keys : List String) (files : Store)
    (h : ∀ k ∈ keys, (storeGet ch k).isSome) (k : String) (hk : k ∈ keys) :
    storeGet (get_keys_from_leader ch true keys files).1 k
      = (storeGet ch k).map (fun c => c ++ "\n") := by
  induction keys generalizing files with
  | nil => exact absurd hk (List.not_mem_nil k)
  | cons k0 rest ih =>
    have hrest : ∀ j ∈ rest, (storeGet ch j).isSome :=
      fun j hj => h j (List.mem_cons_of_mem _ hj)
    obtain ⟨v, hv⟩ := Option.isSome_iff_exists.mp (h k0 (by simp))
    unfold get_keys_from_leader
    rw [if_pos (by simp), hv]
    rcases List.mem_cons.mp hk with hk | hk
    · subst hk
      by_cases hkr : k ∈ rest
      · exact ih _ hrest hkr
      · rw [get_keys_from_leader_not_mem _ _ _ _ _ hkr, storeGet_storeSet_self, hv]
        rfl
    · exact ih _ hrest hk

/-- The result of a follower invocation always carries exactly the files that
`get_keys_from_leader` left on disk, whichever branch returns. -/
theorem setup_non_leader_files (s : CharmState) :
    (setup_non_leader_authentication s).files
      = (get_keys_from_leader s.channel true auth_keys s.files).1 := by
  unfold setup_non_leader_authentication
  by_cases h1 : (!(get_keys_from_leader s.channel true auth_keys s.files).2) = true
  · rw [if_pos h1]
  · rw [if_neg h1]
    by_cases h2 : (!(any_file_changed auth_keys
        (get_keys_from_leader s.channel true auth_keys s.files).1 s.hashes).1
        && is_state s.flags "authentication.setup") = true
    · rw [if_pos h2]
    · rw [if_neg h2]

/-- After a successful leader invocation the broadcast value of each of the
three secret keys equals the leader's on-disk file content for that path. -/
theorem setup_leader_sync (fresh : Fresh) (s : CharmState) (s' : CharmState)
    (tr : List Broadcast) (hrun : setup_leader_authentication fresh s = some (s', tr))
    (k : String) (hk : k ∈ auth_keys) :
    ∃ v, storeGet s'.files k = some v ∧ storeGet s'.channel k = some v := by
  unfold setup_leader_authentication at hrun
  split at hrun
  · exact absurd hrun (by simp)
  · rename_i files2 flags2 heq
    split at hrun
    · rename_i c1 c2 c3 h1 h2 h3
      have hinj := Option.some_injective _ hrun
      have hs' : s' =
          { files := files2,
            channel := storeSet (storeSet (storeSet s.channel known_tokens c1) basic_auth c2)
              service_key c3,
            flags := set_state (remove_state flags2 "kubernetes-master.components.started")
              "authentication.setup",
            hashes := s.hashes } := (congrArg Prod.fst hinj).symm
      subst hs'
      have hkt_sk : known_tokens ≠ service_key := by decide
      have hkt_ba : known_tokens ≠ basic_auth := by decide
      have hba_sk : basic_auth ≠ service_key := by decide
      simp only [auth_keys, List.mem_cons, List.not_mem_nil, or_false] at hk
      rcases hk with hk | hk | hk
      · subst hk
        refine ⟨c3, h3, ?_⟩
        simp only
        rw [storeGet_storeSet_self]
      · subst hk
        refine ⟨c2, h2, ?_⟩
        simp only
        rw [storeGet_storeSet_ne _ _ _ _ hba_sk, storeGet_storeSet_self]
      · subst hk
        refine ⟨c1, h1, ?_⟩
        simp only
        rw [storeGet_storeSet_ne _ _ _ _ hkt_sk, storeGet_storeSet_ne _ _ _ _ hkt_ba,
          storeGet_storeSet_self]
    · exact absurd hrun (by simp)

/-! ## Claim C1: leader/follower secret convergence -/

/-- A concrete random-material oracle (never consumed on the runs below). -/
def fresh0 : Fresh := ⟨fun _ => 'x', "RSAKEY"⟩

/-- A leader that already holds all three secret files on disk. -/
def sL0 : CharmState :=
  { files := [(service_key, "A"), (basic_auth, "B"), (known_tokens, "C")],
    channel := [], flags := [], hashes := [] }

/-- The leader's state after broadcasting. -/
def sL1 : CharmState :=
  match setup_leader_authentication fresh0 sL0 with
  | some (st, _) => st
  | none => sL0

/-- A follower with empty disk reading the leader's broadcast channel. -/
def sF0 : CharmState :=
  { files := [], channel := sL1.channel, flags := [], hashes := [] }

/-- C1, as stated, is false: after the leader broadcasts `"B"` for
`basic_auth.csv` and the follower syncs, the follower's file holds `"B\n"` —
`get_keys_from_leader` appends a newline to every fetched value (lines
436-438) — which is not bit-for-bit equal to the leader's `"B"`. -/
theorem c1_counterexample :
    (setup_leader_authentication fresh0 sL0).map Prod.fst = some sL1
      ∧ storeGet sL1.files basic_auth = some "B"
      ∧ storeGet (setup_non_leader_authentication sF0).files basic_auth = some "B\n"
      ∧ storeGet (setup_non_leader_authentication sF0).files basic_auth
        ≠ storeGet sL1.files basic_auth := by
  refine ⟨by decide, by decide, by decide, by decide⟩

/-- C1 amended: once the leader has broadcast the secret set and a follower
has fetched it via `get_keys_from_leader`, the follower's local file content
at each of the three paths equals the leader's local file content for that
path *with a single trailing newline appended*. -/
theorem c1_follower_file_is_leader_file_newline (fresh : Fresh) (sL sL' : CharmState)
    (tr : List Broadcast) (sF : CharmState)
    (hrun : setup_leader_authentication fresh sL = some (sL', tr))
    (hch : sF.channel = sL'.channel) (k : String) (hk : k ∈ auth_keys) (v : String)
    (hv : storeGet sL'.files k = some v) :
    storeGet (setup_non_leader_authentication sF).files k = some (v ++ "\n") := by
  have hsync := setup_leader_sync fresh sL sL' tr hrun
  have hchsome : ∀ j ∈ auth_keys, (storeGet sF.channel j).isSome := by
    intro j hj
    obtain ⟨w, _, hw2⟩ := hsync j hj
    rw [hch, hw2]
    rfl
  have hkv : storeGet sF.channel k = some v := by
    obtain ⟨w, hw1, hw2⟩ := hsync k hk
    rw [hv] at hw1
    injection hw1 with hw
    rw [hch, hw2, hw]
  rw [setup_non_leader_files,
    get_keys_from_leader_overwrite_get sF.channel auth_keys sF.files hchsome k hk, hkv]
  rfl

/-- Witness for the amended C1 on the concrete leader/follower pair. -/
theorem c1_follower_file_is_leader_file_newline_witness :
    storeGet (setup_non_leader_authentication sF0).files basic_auth = some ("B" ++ "\n") :=
  c1_follower_file_is_leader_file_newline fresh0 sL0 sL1
    [[(known_tokens, "C"), (basic_auth, "B"), (service_key, "A")]] sF0
    (by decide) rfl basic_auth (by decide) "B" (by decide)

/-! ## Claim C2: follower secret sync is all-or-nothing -/

/-- C2: under the protocol invariant that the leader publishes the three keys
atomically — so the broadcast channel holds either all of them or none — a
follower invocation that finds any key missing from the channel reports
not-ready (the fetch returns `False`) and leaves its state completely
unchanged: no secret file is overwritten and `authentication.setup` is not
set. -/
theorem c2_follower_all_or_nothing (s : CharmState)
    (hall : (∀ k ∈ auth_keys, (storeGet s.channel k).isSome)
      ∨ (∀ k ∈ auth_keys, storeGet s.channel k = none))
    (hmiss : ∃ k ∈ auth_keys, storeGet s.channel k = none) :
    (get_keys_from_leader s.channel true auth_keys s.files).2 = false
      ∧ setup_non_leader_authentication s = s := by
  have hnone : storeGet s.channel service_key = none := by
    rcases hall with h | h
    · obtain ⟨k, hk, hkn⟩ := hmiss
      have hs := h k hk
      rw [hkn] at hs
      exact absurd hs (by simp)
    · exact h service_key (by simp [auth_keys])
  have hfetch : get_keys_from_leader s.channel true auth_keys s.files = (s.files, false) := by
    rw [show auth_keys = service_key :: [basic_auth, known_tokens] from rfl]
    unfold get_keys_from_leader
    rw [if_pos (by simp), hnone]
  refine ⟨by rw [hfetch], ?_⟩
  unfold setup_non_leader_authentication
  rw [hfetch]
  cases s with
  | mk files channel flags hashes => rfl

/-- Witness for C2: an empty channel, a follower already holding a stale
`serviceaccount.key` and the `authentication.setup` flag — nothing moves. -/
theorem c2_follower_all_or_nothing_witness :
    (get_keys_from_leader ([] : Store) true auth_keys [(service_key, "old")]).2 = false
      ∧ setup_non_leader_authentication
          { files := [(service_key, "old")], channel := [],
            flags := ["authentication.setup"], hashes := [] }
        = { files := [(service_key, "old")], channel := [],
            flags := ["authentication.setup"], hashes := [] } :=
  c2_follower_all_or_nothing
    { files := [(service_key, "old")], channel := [],
      flags := ["authentication.setup"], hashes := [] }
    (Or.inr (by decide)) ⟨service_key, by decide, rfl⟩

/-! ## Claim C3: the leader broadcasts the whole set, generating only when
nothing was broadcast (or reconfiguration was requested) -/

/-- C3: (1) whenever `setup_leader_authentication` completes, it publishes in
one single `leader_set` batch exactly the three secret keys, each carrying the
leader's final on-disk content for that path; (2) when every key already has a
broadcast value and no explicit `reconfigure.authentication.setup` flag is
set, no new secret material is generated: the outcome is identical for every
random oracle, the handler succeeds, and the files on disk are exactly those
`get_keys_from_leader` left (no rewrite from the generation branch). -/
theorem c3_leader_unique_origin_full_broadcast (s : CharmState) :
    (∀ fresh s' tr, setup_leader_authentication fresh s = some (s', tr) →
      ∃ v1 v2 v3,
        storeGet s'.files known_tokens = some v1
        ∧ storeGet s'.files basic_auth = some v2
        ∧ storeGet s'.files service_key = some v3
        ∧ tr = [[(known_tokens, v1), (basic_auth, v2), (service_key, v3)]]
        ∧ s'.channel = storeSet (storeSet (storeSet s.channel known_tokens v1) basic_auth v2)
            service_key v3)
    ∧ ((∀ k ∈ auth_keys, (storeGet s.channel k).isSome) →
      is_state s.flags "reconfigure.authentication.setup" = false →
      (∀ f1 f2 : Fresh, setup_leader_authentication f1 s = setup_leader_authentication f2 s)
      ∧ (∀ fresh s' tr, setup_leader_authentication fresh s = some (s', tr) →
          s'.files = (get_keys_from_leader s.channel false auth_keys s.files).1)
      ∧ (∀ fresh : Fresh, (setup_leader_authentication fresh s).isSome = true)) := by
  constructor
  · intro fresh s' tr hrun
    unfold setup_leader_authentication at hrun
    split at hrun
    · exact absurd hrun (by simp)
    · rename_i files2 flags2 heq
      split at hrun
      · rename_i v1 v2 v3 h1 h2 h3
        have hinj := Option.some_injective _ hrun
        have hs' := congrArg Prod.fst hinj
        have htr := congrArg Prod.snd hinj
        simp only at hs' htr
        exact ⟨v1, v2, v3, hs' ▸ h1, hs' ▸ h2, hs' ▸ h3, htr.symm, by rw [← hs']⟩
      · exact absurd hrun (by simp)
  · intro hch hrec
    have hok : (get_keys_from_leader s.channel false auth_keys s.files).2 = true :=
      get_keys_from_leader_ok s.channel false auth_keys s.files hch
    have hfg : ∀ f : Fresh, leader_fetch_or_generate f s
        = some ((get_keys_from_leader s.channel false auth_keys s.files).1, s.flags) := by
      intro f
      unfold leader_fetch_or_generate
      rw [hok, hrec]
      simp
    obtain ⟨w1, hw1⟩ := Option.isSome_iff_exists.mp
      (get_keys_from_leader_mem_isSome s.channel false auth_keys s.files hch known_tokens
        (by simp [auth_keys]))
    obtain ⟨w2, hw2⟩ := Option.isSome_iff_exists.mp
      (get_keys_from_leader_mem_isSome s.channel false auth_keys s.files hch basic_auth
        (by simp [auth_keys]))
    obtain ⟨w3, hw3⟩ := Option.isSome_iff_exists.mp
      (get_keys_from_leader_mem_isSome s.channel false auth_keys s.files hch service_key
        (by simp [auth_keys]))
    refine ⟨?_, ?_, ?_⟩
    · intro f1 f2
      unfold setup_leader_authentication
      rw [hfg f1, hfg f2]
    · intro fresh s' tr hrun
      unfold setup_leader_authentication at hrun
      rw [hfg fresh] at hrun
      simp only at hrun
      rw [hw1, hw2, hw3] at hrun
      have hs' := congrArg Prod.fst (Option.some_injective _ hrun)
      simp only at hs'
      rw [← hs']
    · intro fresh
      unfold setup_leader_authentication
      rw [hfg fresh]
      simp only
      rw [hw1, hw2, hw3]
      rfl

/-- Witness for C3 on a leader whose channel already holds all three keys:
two different random oracles give the same successful run. -/
theorem c3_leader_unique_origin_full_broadcast_witness :
    setup_leader_authentication ⟨fun _ => 'a', "KA"⟩
        { files := [], channel := [(service_key, "S"), (basic_auth, "B"), (known_tokens, "K")],
          flags := [], hashes := [] }
      = setup_leader_authentication ⟨fun _ => 'b', "KB"⟩
        { files := [], channel := [(service_key, "S"), (basic_auth, "B"), (known_tokens, "K")],
          flags := [], hashes := [] }
    ∧ (setup_leader_authentication ⟨fun _ => 'a', "KA"⟩
        { files := [], channel := [(service_key, "S"), (basic_auth, "B"), (known_tokens, "K")],
          flags := [], hashes := [] }).isSome = true :=
  ⟨(((c3_leader_unique_origin_full_broadcast
      { files := [], channel := [(service_key, "S"), (basic_auth, "B"), (known_tokens, "K")],
        flags := [], hashes := [] }).2 (by decide) (by decide)).1 ⟨fun _ => 'a', "KA"⟩
        ⟨fun _ => 'b', "KB"⟩),
   (((c3_leader_unique_origin_full_broadcast
      { files := [], channel := [(service_key, "S"), (basic_auth, "B"), (known_tokens, "K")],
        flags := [], hashes := [] }).2 (by decide) (by decide)).2.2 ⟨fun _ => 'a', "KA"⟩)⟩

/-! ## Claim C4: status aggregation is first-match over a fixed priority
order -/

/-- First-match evaluation is determined by the first rule whose predicate
holds: if rule `i` matches and no earlier rule does, the table reports rule
`i`'s status without consulting any later rule. -/
theorem firstMatchStatus_eq_of_first (default : StatusMsg) (rs : List StatusRule)
    (s : KubeSnapshot) :
    ∀ i, i < rs.length → (rs.getD i noRule).pred s = true →
    (∀ j, j < i → (rs.getD j noRule).pred s = false) →
    firstMatchStatus default rs s = (rs.getD i noRule).act s := by
  induction rs with
  | nil =>
    intro i hi
    exact absurd hi (by simp)
  | cons r rest ih =>
    intro i hi hpred hprev
    cases i with
    | zero =>
      simp only [List.getD_cons_zero] at hpred ⊢
      unfold firstMatchStatus
      rw [if_pos hpred]
    | succ n =>
      have h0 : r.pred s = false := by
        have := hprev 0 (Nat.succ_pos n)
        simpa using this
      unfold firstMatchStatus
      rw [if_neg (by simp [h0])]
      simp only [List.getD_cons_succ] at hpred ⊢
      exact ih n (by simpa using hi) hpred
        (fun j hj => by simpa using hprev (j + 1) (Nat.succ_lt_succ hj))

/-- C4: `set_final_status` is first-match over the ordered rule table in
source order (encryption failure, cloud incompatibility, cloud pending,
missing relations with topology-dependent severity, keystone version,
manual upgrade, DNS misconfiguration, stopped services, components not
started with CNI-dependent severity, leader credentials, addons, kube-system
pods, advisory active warnings, ceph key, default active): any snapshot whose
first matching rule is `i` reports rule `i`'s status, whatever lower-priority
rules also match. -/
theorem c4_first_match_priority (s : KubeSnapshot) (i : Nat)
    (hi : i < final_status_rules.length) (hpred : rulePred i s = true)
    (hprev : ∀ j, j < i → rulePred j s = false) :
    set_final_status s = ruleAct i s :=
  firstMatchStatus_eq_of_first ⟨.active, "Kubernetes master running."⟩ final_status_rules s i
    hi hpred hprev

/-- A snapshot matching both the vSphere-incompatibility rule (index 2) and
the lower-priority manual-upgrade rule (index 8). -/
def sC4 : KubeSnapshot :=
  { flags := ["endpoint.vsphere.joined", "kubernetes-master.cloud.blocked",
      "kubernetes-master.upgrade-needed", "kube-api-endpoint.available",
      "kube-control.connected"],
    goalRelations := [], encryptionConfigExists := true, ksApiVersion := none,
    dnsConfig := "auto", autoDnsProvider := none, kubeVersion := [1, 15],
    failingServices := [], podsNotRunning := some [], configServiceCidr := "c",
    dbServiceCidr := none, cephKey := false }

/-- Witness for C4: rules 2 and 8 both match, and the report is rule 2's. -/
theorem c4_first_match_priority_witness :
    rulePred 2 sC4 = true ∧ rulePred 8 sC4 = true ∧ set_final_status sC4 = ruleAct 2 sC4 :=
  ⟨by decide, by decide, c4_first_match_priority sC4 2 (by decide) (by decide) (by decide)⟩

/-! ## Claim C7: invalid DNS-provider handling -/

/-- C7: a `dns-provider` configuration value outside the supported set
(`auto`, `core-dns`, `kube-dns`, `none`, with `core-dns` removed below
Kubernetes 1.14) makes `get_dns_provider` raise `InvalidDnsProvider` carrying
the (lowercased) offending value; a valid value never raises; and when no
higher-priority status rule matches, `set_final_status` reports `blocked`
naming the offending value. -/
theorem c7_invalid_dns_provider (s : KubeSnapshot) :
    (strToLower s.dnsConfig ∉ valid_dns_providers s.kubeVersion →
      get_dns_provider s.dnsConfig s.kubeVersion s.autoDnsProvider
        = Except.error (strToLower s.dnsConfig))
    ∧ (strToLower s.dnsConfig ∈ valid_dns_providers s.kubeVersion →
      ∃ r, get_dns_provider s.dnsConfig s.kubeVersion s.autoDnsProvider = Except.ok r)
    ∧ ((∀ j, j < 9 → rulePred j s = false) →
      strToLower s.dnsConfig ∉ valid_dns_providers s.kubeVersion →
      set_final_status s
        = ⟨.blocked,
          if strToLower s.dnsConfig = "core-dns" then "dns-provider=core-dns requires k8s 1.14+"
          else "dns-provider=" ++ strToLower s.dnsConfig ++ " is invalid"⟩) := by
  refine ⟨?_, ?_, ?_⟩
  · intro h
    unfold get_dns_provider
    rw [if_pos h]
  · intro h
    unfold get_dns_provider
    rw [if_neg (not_not_intro h)]
    split
    · split
      · exact ⟨_, rfl⟩
      · exact ⟨_, rfl⟩
    · exact ⟨_, rfl⟩
  · intro hprev h
    have herr : get_dns_provider s.dnsConfig s.kubeVersion s.autoDnsProvider
        = Except.error (strToLower s.dnsConfig) := by
      unfold get_dns_provider
      rw [if_pos h]
    have hpred : rulePred 9 s = true := by
      simp only [rulePred, final_status_rules, List.getD_cons_succ, List.getD_cons_zero]
      rw [herr]
    have hmain := firstMatchStatus_eq_of_first ⟨.active, "Kubernetes master running."⟩
      final_status_rules s 9 (by decide) hpred hprev
    rw [show set_final_status s
      = firstMatchStatus ⟨.active, "Kubernetes master running."⟩ final_status_rules s from rfl,
      hmain]
    simp only [final_status_rules, List.getD_cons_succ, List.getD_cons_zero]
    rw [herr]

/-- A snapshot with an unsupported provider and no higher-priority problem. -/
def sC7 : KubeSnapshot :=
  { flags := ["kube-api-endpoint.available", "kube-control.connected"],
    goalRelations := [], encryptionConfigExists := true, ksApiVersion := none,
    dnsConfig := "Bogus", autoDnsProvider := none, kubeVersion := [1, 15],
    failingServices := [], podsNotRunning := some [], configServiceCidr := "c",
    dbServiceCidr := none, cephKey := false }

/-- Witness for C7: `dns-provider=Bogus` raises with the lowercased value and
the final status is blocked, naming it. -/
theorem c7_invalid_dns_provider_witness :
    get_dns_provider sC7.dnsConfig sC7.kubeVersion sC7.autoDnsProvider
      = Except.error (strToLower sC7.dnsConfig)
    ∧ set_final_status sC7
      = ⟨.blocked,
        if strToLower sC7.dnsConfig = "core-dns" then "dns-provider=core-dns requires k8s 1.14+"
        else "dns-provider=" ++ strToLower sC7.dnsConfig ++ " is invalid"⟩ :=
  ⟨(c7_invalid_dns_provider sC7).1 (by decide),
   (c7_invalid_dns_provider sC7).2.2 (by decide) (by decide)⟩

/-! ## Claim C5: service-restart gating -/

/-- A collaborator state in which the persisted `kube-scheduler` option map
already equals the desired one: the diff reports no change. -/
def schedC5 : SchedulerState := { prevArgs := some scheduler_opts, extraArgs := [] }

/-- C5, as stated, is false: `configure_scheduler` (like `configure_apiserver`,
lines 1746-1748) calls `service_restart` unconditionally after
`configure_kubernetes_service`, never consulting the change report.  On a
state whose persisted option map is unchanged the collaborator reports
`changed = false`, yet the restart effect still fires — and across two
invocations with an unchanged desired map the restart fires twice, not once. -/
theorem c5_counterexample :
    (configure_kubernetes_service schedC5.prevArgs scheduler_opts schedC5.extraArgs).2 = false
    ∧ (configure_scheduler schedC5).2
      = [ServiceEffect.configured "kube-scheduler" false,
         ServiceEffect.restarted "snap.kube-scheduler.daemon"]
    ∧ (configure_scheduler { prevArgs := none, extraArgs := [] }).2.countP isRestart
      + (configure_scheduler
          (configure_scheduler { prevArgs := none, extraArgs := [] }).1).2.countP isRestart
      = 2 := by
  refine ⟨by decide, by decide, by decide⟩

/-- C5 amended: the configure handlers hand the option map to the
collaborator and then always restart the managed service, exactly once per
invocation, regardless of whether the collaborator reported a change. -/
theorem c5_restart_unconditional (st : SchedulerState) :
    (configure_scheduler st).2
      = [ServiceEffect.configured "kube-scheduler"
          (configure_kubernetes_service st.prevArgs scheduler_opts st.extraArgs).2,
         ServiceEffect.restarted "snap.kube-scheduler.daemon"]
    ∧ (configure_scheduler st).2.countP isRestart = 1 :=
  ⟨rfl, rfl⟩

/-! ## Claim C6: SAN request idempotence -/

theorem sorted_set_sorted (l : List String) : (sorted_set l).Sorted (· ≤ ·) := by
  have h := @List.sorted_mergeSort String (fun a b => a ≤ b)
    (fun a b c hab hbc => by
      simp only [decide_eq_true_eq] at *
      exact le_trans hab hbc)
    (fun a b => by simpa using le_total a b)
    l.dedup
  refine h.imp ?_
  intro a b hab
  simpa using hab

theorem sorted_set_perm_eq (l1 l2 : List String) (h : l1.Perm l2) :
    sorted_set l1 = sorted_set l2 := by
  apply List.eq_of_perm_of_sorted (r := (· ≤ ·))
  · exact (List.mergeSort_perm _ _).trans (h.dedup.trans (List.mergeSort_perm _ _).symm)
  · exact sorted_set_sorted l1
  · exact sorted_set_sorted l2

/-- C6: the SAN list sent with the server-certificate request is the
deduplicated, sorted version of the collected names, so any two relation and
configuration states whose collected names agree as a multiset — in
particular an unchanged logical input set, or the same names collected in any
other order — produce a byte-identical request; the requested set is sorted,
duplicate-free, and contains exactly the collected names. -/
theorem c6_san_request_canonical (i j : SanInputs)
    (hperm : (collect_sans i).Perm (collect_sans j)) :
    request_sans i = request_sans j
    ∧ (request_sans i).Sorted (· ≤ ·)
    ∧ (request_sans i).Nodup
    ∧ (∀ x, x ∈ request_sans i ↔ x ∈ collect_sans i) := by
  refine ⟨sorted_set_perm_eq _ _ hperm, sorted_set_sorted _, ?_, ?_⟩
  · exact (List.mergeSort_perm _ _).nodup_iff.mpr (collect_sans i).nodup_dedup
  · intro x
    unfold request_sans sorted_set
    rw [(List.mergeSort_perm (collect_sans i).dedup (fun a b => a ≤ b)).mem_iff,
      List.mem_dedup]

/-- The spec's example inputs: hostnames `h1`, `h2` and extra names
`"h3 h4"`. -/
def sanInputsA : SanInputs :=
  { unitPublicIp := "h1", ingressIp := "h2", hostname := "h1", fqdn := "h2",
    kubernetesServiceIp := "h1", dnsDomain := "d", loadbalancerIps := "",
    haConnected := false, haClusterVip := "", haClusterDns := "",
    loadbalancerAddresses := none, extraSans := "h3 h4" }

/-- The same logical inputs collected in a different order. -/
def sanInputsB : SanInputs :=
  { unitPublicIp := "h2", ingressIp := "h1", hostname := "h2", fqdn := "h1",
    kubernetesServiceIp := "h1", dnsDomain := "d", loadbalancerIps := "",
    haConnected := false, haClusterVip := "", haClusterDns := "",
    loadbalancerAddresses := none, extraSans := "h4 h3" }

/-- Witness for C6 on the spec's example. -/
theorem c6_san_request_canonical_witness :
    (collect_sans sanInputsA).Perm (collect_sans sanInputsB)
    ∧ request_sans sanInputsA = request_sans sanInputsB :=
  ⟨by decide, (c6_san_request_canonical sanInputsA sanInputsB (by decide)).1⟩

/-! ## Claim C10: service-IP arithmetic -/

set_option maxRecDepth 4096 in
theorem octet_facts : ∀ m, m < 256 →
    (parseOctet (toString m).data = some m
     ∧ ('.' ∈ (toString m).data → False) ∧ (toString m).data ≠ []) := by decide

theorem exploded_data (n : Nat) :
    (exploded n).data
      = (toString (n / 16777216 % 256)).data ++ '.' :: ((toString (n / 65536 % 256)).data
        ++ '.' :: ((toString (n / 256 % 256)).data ++ '.' :: (toString (n % 256)).data)) := by
  simp [exploded, String.data_append]

/-- The dotted-quad rendering of a 32-bit value parses back to that value. -/
theorem parseIPv4_exploded (n : Nat) (h : n < 4294967296) :
    parseIPv4 (exploded n) = some n := by
  have h1 : n / 16777216 % 256 < 256 := Nat.mod_lt _ (by norm_num)
  have h2 : n / 65536 % 256 < 256 := Nat.mod_lt _ (by norm_num)
  have h3 : n / 256 % 256 < 256 := Nat.mod_lt _ (by norm_num)
  have h4 : n % 256 < 256 := Nat.mod_lt _ (by norm_num)
  obtain ⟨p1, q1, r1⟩ := octet_facts _ h1
  obtain ⟨p2, q2, r2⟩ := octet_facts _ h2
  obtain ⟨p3, q3, r3⟩ := octet_facts _ h3
  obtain ⟨p4, q4, r4⟩ := octet_facts _ h4
  have hsplit : (exploded n).data.splitOn '.'
      = [(toString (n / 16777216 % 256)).data, (toString (n / 65536 % 256)).data,
         (toString (n / 256 % 256)).data, (toString (n % 256)).data] := by
    rw [exploded_data]
    have hx := List.splitOn_intercalate [(toString (n / 16777216 % 256)).data,
      (toString (n / 65536 % 256)).data, (toString (n / 256 % 256)).data,
      (toString (n % 256)).data] '.'
      (by
        intro l hl
        simp only [List.mem_cons, List.not_mem_nil, or_false] at hl
        rcases hl with rfl | rfl | rfl | rfl
        · exact q1
        · exact q2
        · exact q3
        · exact q4)
      (by simp)
    simpa [List.intercalate, List.intersperse, List.flatten] using hx
  unfold parseIPv4
  rw [hsplit]
  simp only [p1, p2, p3, p4]
  change some (((n / 16777216 % 256 * 256 + n / 65536 % 256) * 256 + n / 256 % 256) * 256
    + n % 256) = some n
  have e1 : n / 65536 = n / 256 / 256 := by rw [Nat.div_div_eq_div_mul]
  have e2 : n / 16777216 = n / 65536 / 256 := by rw [Nat.div_div_eq_div_mul]
  congr 1
  omega

/-- C10: on a service CIDR that parses (taken from the frozen durable-store
value when truthy, from the configured `service-cidr` otherwise),
`get_kubernetes_service_ip` renders network address + 1 and
`get_deprecated_dns_ip` renders network address + 10, as dotted-quad strings
denoting exactly those 32-bit values. -/
theorem c10_service_ip_arithmetic (db : Option String) (cfg : String) (ip p : Nat)
    (hparse : parseCIDR (service_cidr db cfg) = some (ip, p))
    (hcap : networkAddress ip p + 10 < 4294967296) :
    get_kubernetes_service_ip db cfg = some (exploded (networkAddress ip p + 1))
    ∧ parseIPv4 (exploded (networkAddress ip p + 1)) = some (networkAddress ip p + 1)
    ∧ get_deprecated_dns_ip db cfg = some (exploded (networkAddress ip p + 10))
    ∧ parseIPv4 (exploded (networkAddress ip p + 10)) = some (networkAddress ip p + 10)
    ∧ (∀ c, db = some c → c ≠ "" → service_cidr db cfg = c)
    ∧ (db = none → service_cidr db cfg = cfg) := by
  refine ⟨?_, parseIPv4_exploded _ (by omega), ?_, parseIPv4_exploded _ hcap, ?_, ?_⟩
  · unfold get_kubernetes_service_ip
    rw [hparse]
    change (if networkAddress ip p + 1 < 4294967296 then
      some (exploded (networkAddress ip p + 1)) else none) = _
    rw [if_pos (by omega)]
  · unfold get_deprecated_dns_ip
    rw [hparse]
    change (if networkAddress ip p + 10 < 4294967296 then
      some (exploded (networkAddress ip p + 10)) else none) = _
    rw [if_pos hcap]
  · intro c hc hne
    subst hc
    simp [service_cidr, hne]
  · intro hc
    subst hc
    rfl

/-- Witness for C10 on the charm's default `service-cidr`,
`10.152.183.0/24`. -/
theorem c10_service_ip_arithmetic_witness :
    get_kubernetes_service_ip none "10.152.183.0/24"
      = some (exploded (networkAddress 177780480 24 + 1))
    ∧ get_deprecated_dns_ip none "10.152.183.0/24"
      = some (exploded (networkAddress 177780480 24 + 10)) :=
  ⟨(c10_service_ip_arithmetic none "10.152.183.0/24" 177780480 24 (by decide) (by decide)).1,
   (c10_service_ip_arithmetic none "10.152.183.0/24" 177780480 24
     (by decide) (by decide)).2.2.1⟩

/-! ## Claim C8: `setup_basic_auth` row update -/

/-- Python's `row[1] == username or row[2] == uid` on a well-formed row. -/
def rowMatches (username uid : String) (r : List String) : Prop :=
  r.get? 1 = some username ∨ r.get? 2 = some uid

instance (username uid : String) (r : List String) :
    Decidable (rowMatches username uid r) := by
  unfold rowMatches
  infer_instance

theorem basicAuthUpdate_no_match (newRow : List String) (username uid : String)
    (rows : List (List String)) (hwf : ∀ r ∈ rows, 3 ≤ r.length)
    (hnone : ∀ r ∈ rows, ¬ rowMatches username uid r) :
    basicAuthUpdate newRow username uid rows = some (rows ++ [newRow]) := by
  induction rows with
  | nil => rfl
  | cons r rs ih =>
    have h3 : 3 ≤ r.length := hwf r (by simp)
    have hm := hnone r (by simp)
    obtain ⟨a, ha⟩ : ∃ a, r.get? 1 = some a :=
      ⟨r.get ⟨1, by omega⟩, List.get?_eq_get (by omega)⟩
    obtain ⟨b, hb⟩ : ∃ b, r.get? 2 = some b :=
      ⟨r.get ⟨2, by omega⟩, List.get?_eq_get (by omega)⟩
    have hna : a ≠ username := fun h => hm (Or.inl (h ▸ ha))
    have hnb : b ≠ uid := fun h => hm (Or.inr (h ▸ hb))
    unfold basicAuthUpdate
    simp only [ha, hb]
    rw [if_neg hna, if_neg hnb,
      ih (fun q hq => hwf q (by simp [hq])) (fun q hq => hnone q (by simp [hq]))]
    rfl

theorem basicAuthUpdate_first_match (newRow : List String) (username uid : String)
    (rows : List (List String)) (hwf : ∀ r ∈ rows, 3 ≤ r.length) :
    ∀ i (hi : i < rows.length),
    (∀ j (hj : j < i), ¬ rowMatches username uid (rows.get ⟨j, Nat.lt_trans hj hi⟩)) →
    rowMatches username uid (rows.get ⟨i, hi⟩) →
    basicAuthUpdate newRow username uid rows = some (rows.set i newRow) := by
  induction rows with
  | nil =>
    intro i hi
    exact absurd hi (by simp)
  | cons r rs ih =>
    intro i hi hprev hmatch
    have h3 : 3 ≤ r.length := hwf r (by simp)
    obtain ⟨a, ha⟩ : ∃ a, r.get? 1 = some a :=
      ⟨r.get ⟨1, by omega⟩, List.get?_eq_get (by omega)⟩
    obtain ⟨b, hb⟩ : ∃ b, r.get? 2 = some b :=
      ⟨r.get ⟨2, by omega⟩, List.get?_eq_get (by omega)⟩
    cases i with
    | zero =>
      have hmatch0 : rowMatches username uid r := hmatch
      unfold basicAuthUpdate
      simp only [ha, hb]
      by_cases hfa : a = username
      · rw [if_pos hfa]
        rfl
      · have hfb : b = uid := by
          rcases hmatch0 with hm | hm
          · rw [ha] at hm
            exact absurd (Option.some_injective _ hm) hfa
          · rw [hb] at hm
            exact Option.some_injective _ hm
        rw [if_neg hfa, if_pos hfb]
        rfl
    | succ n =>
      have hm0 : ¬ rowMatches username uid r := hprev 0 (Nat.succ_pos n)
      have hna : a ≠ username := fun h => hm0 (Or.inl (h ▸ ha))
      have hnb : b ≠ uid := fun h => hm0 (Or.inr (h ▸ hb))
      have hn : n < rs.length := by
        simp only [List.length_cons] at hi
        omega
      unfold basicAuthUpdate
      simp only [ha, hb]
      rw [if_neg hna, if_neg hnb,
        ih (fun q hq => hwf q (by simp [hq])) n hn
          (fun j hj => hprev (j + 1) (Nat.succ_lt_succ hj)) hmatch]
      rfl

/-- C8: on a well-formed table, `setup_basic_auth` replaces exactly the first
row whose second field is `username` or whose third field is `uid` by the new
row in place, keeping every other row and the order; appends the new row when
no row matches; and substitutes a freshly generated 32-character token for a
falsy password. -/
theorem c8_setup_basic_auth_frame (choose : Nat → Char) (password : Option String)
    (username uid : String) (groups : Option String) (rows : List (List String))
    (hwf : ∀ r ∈ rows, 3 ≤ r.length) :
    (∀ i (hi : i < rows.length),
      (∀ j (hj : j < i), ¬ rowMatches username uid (rows.get ⟨j, Nat.lt_trans hj hi⟩)) →
      rowMatches username uid (rows.get ⟨i, hi⟩) →
      setup_basic_auth_rows choose password username uid groups rows
        = some (rows.set i (basicAuthNewRow choose password username uid groups)))
    ∧ ((∀ r ∈ rows, ¬ rowMatches username uid r) →
      setup_basic_auth_rows choose password username uid groups rows
        = some (rows ++ [basicAuthNewRow choose password username uid groups]))
    ∧ ((password = none ∨ password = some "") →
      (basicAuthNewRow choose password username uid groups).get? 0
        = some (token_generator choose)
      ∧ (token_generator choose).length = 32) := by
  refine ⟨?_, ?_, ?_⟩
  · intro i hi hprev hmatch
    exact basicAuthUpdate_first_match _ username uid rows hwf i hi hprev hmatch
  · intro hnone
    exact basicAuthUpdate_no_match _ username uid rows hwf hnone
  · intro hpw
    constructor
    · rcases hpw with h | h <;> subst h <;> rfl
    · simp [token_generator]

/-- A table whose first `admin`-matching row (by uid) is the second one. -/
def rowsC8 : List (List String) :=
  [["t1", "alice", "alice"], ["t2", "bob", "admin"], ["t3", "admin", "x"]]

/-- Witness for C8: the second row is replaced in place. -/
theorem c8_setup_basic_auth_frame_witness :
    setup_basic_auth_rows (fun _ => 'x') (some "pw") "admin" "admin" (some "system:masters")
        rowsC8
      = some (rowsC8.set 1
          (basicAuthNewRow (fun _ => 'x') (some "pw") "admin" "admin"
            (some "system:masters"))) :=
  (c8_setup_basic_auth_frame (fun _ => 'x') (some "pw") "admin" "admin" (some "system:masters")
    rowsC8 (by decide)).1 1 (by decide) (by decide) (by decide)

/-! ## Claim C9: `add_rbac_roles` line rewrites -/

theorem add_rbac_cons_out (line : String) (rest : List String) (out : String)
    (h : rbacTransform line = some (some out)) :
    add_rbac_roles (line :: rest) = (add_rbac_roles rest).map (fun outs => out :: outs) := by
  change (match rbacTransform line with
    | none => none
    | some none => add_rbac_roles rest
    | some (some o) =>
      match add_rbac_roles rest with
      | none => none
      | some outs => some (o :: outs)) = _
  rw [h]
  cases hrest : add_rbac_roles rest <;> rfl

theorem add_rbac_cons_drop (line : String) (rest : List String)
    (h : rbacTransform line = some none) :
    add_rbac_roles (line :: rest) = add_rbac_roles rest := by
  change (match rbacTransform line with
    | none => none
    | some none => add_rbac_roles rest
    | some (some o) =>
      match add_rbac_roles rest with
      | none => none
      | some outs => some (o :: outs)) = _
  rw [h]

/-- C9: `add_rbac_roles` rewrites the table line by line: a three-field
record ending in `admin` gains `"system:masters"` as a quoted fourth field; a
record whose third field is `kube_proxy` keeps its token but gets username
`system:kube-proxy` and user `kube-proxy`; a `kubelet`/`kubelet` record is
dropped; every other (well-formed) line is copied unchanged. -/
theorem c9_add_rbac_roles_lines (line : String) (rest : List String) :
    (∀ t u, strSplitOn ',' (strTrim line) = [t, u, "admin"] →
      add_rbac_roles (line :: rest)
        = (add_rbac_roles rest).map
            (fun outs => (t ++ "," ++ u ++ "," ++ "admin" ++ ",\"system:masters\"\n") :: outs))
    ∧ (∀ t rec, strSplitOn ',' (strTrim line) = t :: rec →
      (t :: rec).get? 2 = some "kube_proxy" →
      add_rbac_roles (line :: rest)
        = (add_rbac_roles rest).map
            (fun outs => (t ++ ",system:kube-proxy,kube-proxy\n") :: outs))
    ∧ ((strSplitOn ',' (strTrim line)).get? 2 = some "kubelet" →
      (strSplitOn ',' (strTrim line)).getD 1 "" = "kubelet" →
      add_rbac_roles (line :: rest) = add_rbac_roles rest)
    ∧ (∀ f2, (strSplitOn ',' (strTrim line)).get? 2 = some f2 →
      ¬(f2 = "admin" ∧ (strSplitOn ',' (strTrim line)).length = 3) →
      f2 ≠ "kube_proxy" →
      ¬(f2 = "kubelet" ∧ (strSplitOn ',' (strTrim line)).getD 1 "" = "kubelet") →
      add_rbac_roles (line :: rest) = (add_rbac_roles rest).map (fun outs => line :: outs)) := by
  refine ⟨?_, ?_, ?_, ?_⟩
  · intro t u hsplit
    apply add_rbac_cons_out
    unfold rbacTransform
    simp only [hsplit, List.get?_cons_succ, List.get?_cons_zero]
    rw [if_pos (by simp)]
    rfl
  · intro t rec hsplit hkp
    apply add_rbac_cons_out
    unfold rbacTransform
    simp only [hsplit, hkp]
    rw [if_neg (by simp), if_pos (by simp)]
    rfl
  · intro h2 h1
    apply add_rbac_cons_drop
    unfold rbacTransform
    simp only [h2]
    rw [if_neg (by simp), if_neg (by simp), if_pos (And.intro trivial h1)]
  · intro f2 h2 hadm hkp hkl
    apply add_rbac_cons_out
    unfold rbacTransform
    simp only [h2]
    rw [if_neg hadm, if_neg hkp, if_neg hkl]

/-- Witness for C9 on a concrete admin line. -/
theorem c9_add_rbac_roles_lines_witness :
    add_rbac_roles ["tok1,adm,admin\n", "x,y,z\n"]
      = (add_rbac_roles ["x,y,z\n"]).map
          (fun outs => ("tok1" ++ "," ++ "adm" ++ "," ++ "admin" ++ ",\"system:masters\"\n")
            :: outs) :=
  (c9_add_rbac_roles_lines "tok1,adm,admin\n" ["x,y,z\n"]).1 "tok1" "adm" (by decide)

end KubernetesMaster
